import Mathlib

/-!
Shallow embedding of the practice-tracking logic of the learnFastApi
repository (src/main.py, src/database.py, src/migrate_db.py).

Calendar dates are modelled as integers (days since an arbitrary epoch), so
that `(today - last_practice_date).days` becomes plain integer subtraction.
The ORM session is modelled as an explicit `DBState` holding the
practice_records rows and the daily_streaks rows touched by the endpoints;
an endpoint returns its HTTP-level result together with the state after the
request (unchanged whenever the handler raises before `db.commit()`).
-/

/-- SubscriptionTier enum from database.py. -/
inductive SubscriptionTier
  | free
  | basic
  | premium
  | lifetime
deriving DecidableEq

/-- The daily_sentences field of SUBSCRIPTION_LIMITS in database.py;
-1 encodes "unlimited". -/
def daily_sentences : SubscriptionTier → Int
  | .free => 10
  | .basic => 50
  | .premium => -1
  | .lifetime => -1

/-- A stored practice_records row, restricted to the columns the practice
endpoints read or write.  The remaining columns of the PracticeRecord model
(user_answer, practice_count, mastery_level, next_review_date, is_mastered,
is_bookmarked, created_at, updated_at) keep their column defaults and are
never read by the endpoints under study. -/
structure PracticeRecordRow where
  user_id : Nat
  sentence_id : Nat
  practice_date : Int
deriving DecidableEq

/-- The attribute names of the PracticeRecord declarative model in
database.py: its mapped columns and its two relationship attributes.
There is no attribute named "completed". -/
def PracticeRecord.attributes : List String :=
  ["id", "user_id", "sentence_id", "user_answer", "practice_date",
   "practice_count", "mastery_level", "next_review_date", "is_mastered",
   "is_bookmarked", "created_at", "updated_at", "user", "sentence"]

/-- The keyword arguments record_practice (main.py) passes when it
constructs the new PracticeRecord. -/
def insert_kwargs : List String :=
  ["user_id", "sentence_id", "practice_date", "completed"]

/-- SQLAlchemy declarative constructor admissibility: every keyword argument
must name an attribute of the mapped class, otherwise construction raises
TypeError before the object is ever added to the session. -/
def declarative_ctor_ok (attrs kwargs : List String) : Bool :=
  kwargs.all fun k => attrs.contains k

/-- A daily_streaks row (database.py DailyStreak), column defaults as in the
table definition: counters zero, last_practice_date NULL. -/
structure DailyStreak where
  current_streak : Int := 0
  longest_streak : Int := 0
  last_practice_date : Option Int := none
  total_practice_days : Int := 0
  total_sentences_practiced : Int := 0
deriving DecidableEq

/-- The database state the practice endpoints read and write: the
practice_records rows and the daily_streaks rows (keyed by user_id). -/
structure DBState where
  records : List PracticeRecordRow
  streaks : List (Nat × DailyStreak)
deriving DecidableEq

/-- Count of a user's practice_records rows on one exact date
(the query filter(user_id == uid, practice_date == d).count() shape used by
record_practice and get_practice_stats). -/
def countOnDate (db : DBState) (uid : Nat) (d : Int) : Nat :=
  (db.records.filter fun r => r.user_id == uid && r.practice_date == d).length

/-- The dedup lookup in record_practice:
filter(user_id, sentence_id, practice_date).first(). -/
def findExisting (db : DBState) (uid sid : Nat) (today : Int) :
    Option PracticeRecordRow :=
  (db.records.filter fun r =>
    r.user_id == uid && r.sentence_id == sid && r.practice_date == today).head?

/-- The user's daily_streaks row, or a fresh row with column defaults when
absent (the fetch-or-create step of record_practice, and the
`streak.x if streak else 0` defaults of get_practice_stats). -/
def streakOf (db : DBState) (uid : Nat) : DailyStreak :=
  ((db.streaks.find? fun p => p.1 == uid).map Prod.snd).getD {}

/-- Store a user's daily_streaks row back (upsert on commit). -/
def setStreak (db : DBState) (uid : Nat) (s : DailyStreak) : DBState :=
  if db.streaks.any fun p => p.1 == uid then
    { db with streaks := db.streaks.map fun p => if p.1 == uid then (uid, s) else p }
  else
    { db with streaks := db.streaks ++ [(uid, s)] }

/-- The streak-update block of record_practice (main.py): increment
total_sentences_practiced unconditionally; then, when today is a new
practice day, increment total_practice_days, apply the gap rule to
current_streak, raise longest_streak when overtaken, and stamp
last_practice_date with today. -/
def updateStreak (s : DailyStreak) (today : Int) : DailyStreak :=
  let s := { s with total_sentences_practiced := s.total_sentences_practiced + 1 }
  if s.last_practice_date ≠ some today then
    let s := { s with total_practice_days := s.total_practice_days + 1 }
    let s :=
      match s.last_practice_date with
      | some last =>
        let days_diff := today - last
        if days_diff = 1 then
          { s with current_streak := s.current_streak + 1 }
        else if days_diff > 1 then
          { s with current_streak := 1 }
        else
          s
      | none => { s with current_streak := 1 }
    let s :=
      if s.current_streak > s.longest_streak then
        { s with longest_streak := s.current_streak }
      else
        s
    { s with last_practice_date := some today }
  else
    s

/-- The committed effect of the recording branch: insert the new row and
upsert the updated streak. -/
def applyRecording (db : DBState) (uid sid : Nat) (today : Int) : DBState :=
  let db := { db with records := db.records ++ [⟨uid, sid, today⟩] }
  setStreak db uid (updateStreak (streakOf db uid) today)

/-- Errors record_practice can surface: the HTTP 403 quota response carrying
the numeric daily limit, and the Python TypeError raised by the declarative
constructor on an invalid keyword argument. -/
inductive RecordError
  | quota_exceeded (daily_limit : Int)
  | type_error (kw : String)
deriving DecidableEq

/-- The success payload of record_practice: message and echoed date. -/
structure RecordOk where
  message : String
  date : Int
deriving DecidableEq

/-- record_practice (main.py), for an authenticated user of the given tier,
parameterised by the attribute list of the PracticeRecord model so that the
intended model (whose table, per migrate_db.py, has a completed column) can
be stated alongside the actual one.  Steps, in source order: the daily-limit
check (only when the tier limit is > 0), the dedup lookup, construction of
the new PracticeRecord with insert_kwargs (raising TypeError when a keyword
names no model attribute), the streak upsert, and the commit.  The state is
returned unchanged on every raising path (nothing was committed). -/
def record_practice_with (attrs : List String) (tier : SubscriptionTier)
    (uid sid : Nat) (today : Int) (db : DBState) :
    Except RecordError RecordOk × DBState :=
  let daily_limit := daily_sentences tier
  if daily_limit > 0 ∧ (countOnDate db uid today : Int) ≥ daily_limit then
    (.error (.quota_exceeded daily_limit), db)
  else
    match findExisting db uid sid today with
    | some _ => (.ok ⟨"Practice recorded", today⟩, db)
    | none =>
      if declarative_ctor_ok attrs insert_kwargs then
        (.ok ⟨"Practice recorded", today⟩, applyRecording db uid sid today)
      else
        (.error (.type_error ("completed")), db)

/-- record_practice against the actual PracticeRecord model of database.py. -/
def record_practice : SubscriptionTier → Nat → Nat → Int → DBState →
    Except RecordError RecordOk × DBState :=
  record_practice_with PracticeRecord.attributes

/-- The attribute list of the PracticeRecord model as evidently intended:
migrate_db.py creates the practice_records table with a
`completed BOOLEAN DEFAULT TRUE` column, which the model in database.py
omits. -/
def PracticeRecordIntended.attributes : List String :=
  PracticeRecord.attributes ++ ["completed"]

/-- record_practice as intended: identical handler over the model carrying
the completed column, so the recording branch actually commits. -/
def record_practice_intended : SubscriptionTier → Nat → Nat → Int → DBState →
    Except RecordError RecordOk × DBState :=
  record_practice_with PracticeRecordIntended.attributes

/-- The last_7_days history of get_practice_stats (main.py): for i in
range(6, -1, -1), the day today - i paired with that day's record count. -/
def last7History (db : DBState) (uid : Nat) (today : Int) : List (Int × Nat) :=
  (List.range 7).reverse.map fun i : Nat =>
    (today - (i : Int), countOnDate db uid (today - (i : Int)))

/-- The response of get_practice_stats (main.py), without the catalog-wide
total_sentences count (which reads the Sentence table, outside this model). -/
structure PracticeStats where
  today_practiced : Nat
  today_sentence_ids : List Nat
  current_streak : Int
  longest_streak : Int
  total_practice_days : Int
  total_sentences_practiced : Int
  last_7_days : List (Int × Nat)
deriving DecidableEq

/-- get_practice_stats (main.py) for an authenticated user. -/
def get_practice_stats (db : DBState) (uid : Nat) (today : Int) : PracticeStats :=
  let s := streakOf db uid
  { today_practiced := countOnDate db uid today
    today_sentence_ids :=
      (db.records.filter fun r =>
        r.user_id == uid && r.practice_date == today).map (·.sentence_id)
    current_streak := s.current_streak
    longest_streak := s.longest_streak
    total_practice_days := s.total_practice_days
    total_sentences_practiced := s.total_sentences_practiced
    last_7_days := last7History db uid today }

/-- One entry of the get_practice_history response: a date with its record
count and the sentence ids practiced that date. -/
structure HistoryEntry where
  date : Int
  count : Nat
  sentence_ids : List Nat
deriving DecidableEq

/-- One step of the grouping loop of get_practice_history: fold a record
into the (insertion-ordered) per-date history. -/
def historyAdd (h : List HistoryEntry) (r : PracticeRecordRow) :
    List HistoryEntry :=
  if h.any fun e => e.date == r.practice_date then
    h.map fun e =>
      if e.date == r.practice_date then
        { e with count := e.count + 1
                 sentence_ids := e.sentence_ids ++ [r.sentence_id] }
      else
        e
  else
    h ++ [⟨r.practice_date, 1, [r.sentence_id]⟩]

/-- get_practice_history (main.py): start_date = today - (days - 1), filter
the user's records with practice_date ≥ start_date, group by date in
iteration order.  Returns (start_date, end_date, history). -/
def get_practice_history (db : DBState) (uid : Nat) (days : Nat)
    (today : Int) : Int × Int × List HistoryEntry :=
  let start_date := today - ((days : Int) - 1)
  let records := db.records.filter fun r =>
    r.user_id == uid && decide (r.practice_date ≥ start_date)
  (start_date, today, records.foldl historyAdd [])

/-- Correctness statement for the per-date grouping of
get_practice_history: the grouped entries cover exactly the dates occurring
in the processed records, and each entry carries that date's record count
and sentence ids in record order. -/
def HistInv (p : List PracticeRecordRow) (h : List HistoryEntry) : Prop :=
  (∀ d : Int, (∃ e ∈ h, e.date = d) ↔ ∃ q ∈ p, q.practice_date = d) ∧
  ∀ e ∈ h,
    e.count = (p.filter fun q => q.practice_date == e.date).length ∧
    e.sentence_ids =
      (p.filter fun q => q.practice_date == e.date).map (·.sentence_id)

/-! ### Basic lemmas about the embedded handler -/

/-- Construction of the new PracticeRecord against the actual model fails:
"completed" names no attribute. -/
lemma declarative_ctor_actual_fails :
    declarative_ctor_ok PracticeRecord.attributes insert_kwargs = false := by
  decide

/-- Against the intended model (with the completed column) construction
succeeds. -/
lemma declarative_ctor_intended_ok :
    declarative_ctor_ok PracticeRecordIntended.attributes insert_kwargs = true := by
  decide

/-- record_practice never changes the database state: every path either
raises before commit or is the dedup no-op. -/
lemma record_practice_snd_eq (tier : SubscriptionTier) (uid sid : Nat)
    (today : Int) (db : DBState) :
    (record_practice tier uid sid today db).2 = db := by
  unfold record_practice record_practice_with
  by_cases hq : daily_sentences tier > 0 ∧
      (countOnDate db uid today : Int) ≥ daily_sentences tier
  · simp [hq]
  · cases hf : findExisting db uid sid today with
    | some r => simp [hq, hf]
    | none => simp [hq, hf, declarative_ctor_actual_fails]

/-- The intended handler either leaves the state unchanged (quota rejection
or dedup drop) or commits exactly the recording effect. -/
lemma record_practice_intended_snd_cases (tier : SubscriptionTier)
    (uid sid : Nat) (today : Int) (db : DBState) :
    (record_practice_intended tier uid sid today db).2 = db ∨
      (record_practice_intended tier uid sid today db).2 =
        applyRecording db uid sid today := by
  unfold record_practice_intended record_practice_with
  by_cases hq : daily_sentences tier > 0 ∧
      (countOnDate db uid today : Int) ≥ daily_sentences tier
  · simp [hq]
  · cases hf : findExisting db uid sid today with
    | some r => simp [hq, hf]
    | none => simp [hq, hf, declarative_ctor_intended_ok]

/-- find? after the in-place map-update of an upsert hit. -/
lemma find?_map_upsert (l : List (Nat × DailyStreak)) (uid : Nat)
    (s : DailyStreak) (h : l.any (fun p => p.1 == uid) = true) :
    (l.map fun p => if p.1 == uid then (uid, s) else p).find?
      (fun p => p.1 == uid) = some (uid, s) := by
  induction l with
  | nil => simp at h
  | cons p ps ih =>
    by_cases hp : (p.1 == uid) = true
    · rw [List.map_cons, if_pos hp, List.find?_cons_of_pos _ (by simp)]
    · have hp' : ¬ ((p.1 == uid) = true) := hp
      simp only [List.any_cons, Bool.not_eq_true] at h hp'
      rw [hp', Bool.false_or] at h
      rw [List.map_cons, if_neg hp, List.find?_cons_of_neg _ (by simp [hp'])]
      exact ih h

/-- find? after appending the fresh row of an upsert miss. -/
lemma find?_append_upsert (l : List (Nat × DailyStreak)) (uid : Nat)
    (s : DailyStreak) (h : l.any (fun p => p.1 == uid) = false) :
    (l ++ [(uid, s)]).find? (fun p => p.1 == uid) = some (uid, s) := by
  induction l with
  | nil => rw [List.nil_append, List.find?_cons_of_pos _ (by simp)]
  | cons p ps ih =>
    simp only [List.any_cons, Bool.or_eq_false_iff] at h
    rw [List.cons_append, List.find?_cons_of_neg _ (by simp [h.1])]
    exact ih h.2

/-- Reading back the streak row just stored. -/
lemma streakOf_setStreak (db : DBState) (uid : Nat) (s : DailyStreak) :
    streakOf (setStreak db uid s) uid = s := by
  unfold streakOf setStreak
  by_cases hany : (db.streaks.any fun p => p.1 == uid) = true
  · rw [if_pos hany]
    show (Option.map Prod.snd ((db.streaks.map
        fun p => if p.1 == uid then (uid, s) else p).find?
        fun p => p.1 == uid)).getD _ = s
    rw [find?_map_upsert db.streaks uid s hany]
    rfl
  · rw [if_neg hany]
    show (Option.map Prod.snd ((db.streaks ++ [(uid, s)]).find?
        fun p => p.1 == uid)).getD _ = s
    rw [find?_append_upsert db.streaks uid s (Bool.eq_false_iff.mpr hany)]
    rfl

/-- When the tier limit is positive and today's count has reached it, the
handler raises the quota error carrying the limit and commits nothing. -/
lemma record_practice_quota_hit (tier : SubscriptionTier) (uid sid : Nat)
    (today : Int) (db : DBState)
    (h : 0 < daily_sentences tier ∧
      daily_sentences tier ≤ (countOnDate db uid today : Int)) :
    record_practice tier uid sid today db =
      (.error (.quota_exceeded (daily_sentences tier)), db) := by
  simp only [record_practice, record_practice_with]
  rw [if_pos h]

/-- When the quota check passes, the handler returns the success payload or
the constructor TypeError, never the quota error. -/
lemma record_practice_quota_pass (tier : SubscriptionTier) (uid sid : Nat)
    (today : Int) (db : DBState)
    (h : ¬(0 < daily_sentences tier ∧
      daily_sentences tier ≤ (countOnDate db uid today : Int))) :
    (record_practice tier uid sid today db).1 =
        .ok ⟨"Practice recorded", today⟩ ∨
      (record_practice tier uid sid today db).1 =
        .error (.type_error ("completed")) := by
  simp only [record_practice, record_practice_with]
  rw [if_neg h]
  cases hf : findExisting db uid sid today with
  | some r => exact Or.inl rfl
  | none =>
    right
    simp [declarative_ctor_actual_fails]

/-- C2: record_practice rejects with the quota error exactly when the
tier's daily limit is positive (the finite quotas, i.e. Free and Basic) and
the user's record count for today has reached it; the error carries the
numeric limit, rejection leaves the state untouched, and Premium/Lifetime
users (unlimited quota, encoded -1) never receive it. -/
theorem record_practice_quota_check (tier : SubscriptionTier) (uid sid : Nat)
    (today : Int) (db : DBState) :
    ((record_practice tier uid sid today db).1 =
        .error (.quota_exceeded (daily_sentences tier)) ↔
      0 < daily_sentences tier ∧
        daily_sentences tier ≤ (countOnDate db uid today : Int)) ∧
    (∀ lim : Int,
      (record_practice tier uid sid today db).1 =
          .error (.quota_exceeded lim) →
        lim = daily_sentences tier ∧
          (record_practice tier uid sid today db).2 = db) ∧
    (0 < daily_sentences tier ↔ tier = .free ∨ tier = .basic) ∧
    ((tier = .premium ∨ tier = .lifetime) →
      ∀ lim : Int,
        (record_practice tier uid sid today db).1 ≠
          .error (.quota_exceeded lim)) := by
  refine ⟨⟨?_, ?_⟩, ?_, ?_, ?_⟩
  · intro hres
    by_contra hq
    rcases record_practice_quota_pass tier uid sid today db hq with h | h <;>
      simp [h] at hres
  · intro hq
    rw [record_practice_quota_hit tier uid sid today db hq]
  · intro lim hres
    by_cases hq : 0 < daily_sentences tier ∧
        daily_sentences tier ≤ (countOnDate db uid today : Int)
    · rw [record_practice_quota_hit tier uid sid today db hq] at hres ⊢
      refine ⟨?_, rfl⟩
      cases hres
      rfl
    · rcases record_practice_quota_pass tier uid sid today db hq with h | h <;>
        simp [h] at hres
  · cases tier <;> simp [daily_sentences]
  · intro htier lim hres
    have hq : ¬(0 < daily_sentences tier ∧
        daily_sentences tier ≤ (countOnDate db uid today : Int)) := by
      rcases htier with h | h <;> subst h <;> simp [daily_sentences]
    rcases record_practice_quota_pass tier uid sid today db hq with h | h <;>
      simp [h] at hres

/-- Instantiation of record_practice_quota_check: a Free user with ten
records today is rejected with limit 10. -/
theorem record_practice_quota_check_witness :
    (record_practice .free 3 0 20
        ⟨(List.range 10).map (fun i => ⟨3, i, 20⟩), []⟩).1 =
      .error (.quota_exceeded 10) :=
  (record_practice_quota_check .free 3 0 20
    ⟨(List.range 10).map (fun i => ⟨3, i, 20⟩), []⟩).1.mpr (by decide)

/-- C10: the quota check runs before the dedup lookup: with a positive tier
limit already reached, even a same-day repeat of an already-recorded
sentence (which below quota is a silent no-op) is rejected with the quota
error. -/
theorem record_practice_quota_before_dedup (tier : SubscriptionTier)
    (uid sid : Nat) (today : Int) (db : DBState)
    (h1 : 0 < daily_sentences tier)
    (h2 : daily_sentences tier ≤ (countOnDate db uid today : Int))
    (h3 : findExisting db uid sid today ≠ none) :
    record_practice tier uid sid today db =
      (.error (.quota_exceeded (daily_sentences tier)), db) :=
  record_practice_quota_hit tier uid sid today db ⟨h1, h2⟩

/-- Instantiation of record_practice_quota_before_dedup: repeating sentence
0, already recorded today, at quota yields the quota error, not the no-op. -/
theorem record_practice_quota_before_dedup_witness :
    record_practice .free 3 0 20
        ⟨(List.range 10).map (fun i => ⟨3, i, 20⟩), []⟩ =
      (.error (.quota_exceeded 10),
        ⟨(List.range 10).map (fun i => ⟨3, i, 20⟩), []⟩) :=
  record_practice_quota_before_dedup .free 3 0 20
    ⟨(List.range 10).map (fun i => ⟨3, i, 20⟩), []⟩
    (by decide) (by decide) (by decide)

/-- C5: when the quota check passes and a PracticeRecord for
(user, sentence, today) already exists, record_practice is a silent no-op:
state unchanged, success acknowledgment echoing the date. -/
theorem record_practice_dedup_noop (tier : SubscriptionTier) (uid sid : Nat)
    (today : Int) (db : DBState)
    (hq : ¬(0 < daily_sentences tier ∧
      daily_sentences tier ≤ (countOnDate db uid today : Int)))
    (he : findExisting db uid sid today ≠ none) :
    record_practice tier uid sid today db =
      (.ok ⟨"Practice recorded", today⟩, db) := by
  simp only [record_practice, record_practice_with]
  rw [if_neg hq]
  cases hf : findExisting db uid sid today with
  | some r => rfl
  | none => exact absurd hf he

/-- Instantiation of record_practice_dedup_noop: a Premium user repeating
today's sentence gets the acknowledgment and the state is unchanged. -/
theorem record_practice_dedup_noop_witness :
    record_practice .premium 2 3 10 ⟨[⟨2, 3, 10⟩], []⟩ =
      (.ok ⟨"Practice recorded", 10⟩, ⟨[⟨2, 3, 10⟩], []⟩) :=
  record_practice_dedup_noop .premium 2 3 10 ⟨[⟨2, 3, 10⟩], []⟩
    (by decide) (by decide)

/-- C3: the PracticeRecord model has no attribute named "completed" while
record_practice passes completed= among the constructor keywords, so every
call reaching the insert step raises TypeError before any commit, and no
call to record_practice ever changes the stored state. -/
theorem record_practice_insert_type_error (tier : SubscriptionTier)
    (uid sid : Nat) (today : Int) (db : DBState) :
    ("completed" ∈ insert_kwargs ∧
        "completed" ∉ PracticeRecord.attributes) ∧
    (record_practice tier uid sid today db).2 = db ∧
    (¬(0 < daily_sentences tier ∧
          daily_sentences tier ≤ (countOnDate db uid today : Int)) →
      findExisting db uid sid today = none →
      (record_practice tier uid sid today db).1 =
        .error (.type_error ("completed"))) := by
  refine ⟨by decide, record_practice_snd_eq tier uid sid today db, ?_⟩
  intro hq hf
  simp only [record_practice, record_practice_with]
  rw [if_neg hq, hf]
  simp [declarative_ctor_actual_fails]

/-- Instantiation of record_practice_insert_type_error: the very first
recording attempt of a fresh Free user raises the TypeError. -/
theorem record_practice_insert_type_error_witness :
    (record_practice .free 1 1 100 ⟨[], []⟩).1 =
      .error (.type_error ("completed")) :=
  (record_practice_insert_type_error .free 1 1 100 ⟨[], []⟩).2.2
    (by decide) (by decide)

/-- The streak-update rule keeps current_streak ≤ longest_streak, computes
the new longest_streak as the max of the old one and the new
current_streak, and never lowers longest_streak. -/
lemma updateStreak_longest (s : DailyStreak) (today : Int)
    (h : s.current_streak ≤ s.longest_streak) :
    (updateStreak s today).longest_streak =
        max s.longest_streak (updateStreak s today).current_streak ∧
      (updateStreak s today).current_streak ≤
        (updateStreak s today).longest_streak ∧
      s.longest_streak ≤ (updateStreak s today).longest_streak := by
  unfold updateStreak
  by_cases hl : s.last_practice_date ≠ some today
  · rw [if_pos hl]
    cases hdate : s.last_practice_date with
    | none =>
      by_cases hc : (1 : Int) > s.longest_streak <;>
        simp [hdate, hc] <;> omega
    | some last =>
      by_cases h1 : today - last = 1
      · by_cases hc : s.current_streak + 1 > s.longest_streak <;>
          simp [hdate, h1, hc] <;> omega
      · by_cases h2 : today - last > 1
        · by_cases hc : (1 : Int) > s.longest_streak <;>
            simp [hdate, h1, h2, hc] <;> omega
        · by_cases hc : s.current_streak > s.longest_streak <;>
            simp [hdate, h1, h2, hc] <;> omega
  · rw [if_neg hl]
    simp
    omega

/-- The streak row read back after the recording effect is the updated one. -/
lemma streakOf_applyRecording (db : DBState) (uid sid : Nat) (today : Int) :
    streakOf (applyRecording db uid sid today) uid =
      updateStreak (streakOf db uid) today := by
  unfold applyRecording
  rw [streakOf_setStreak]
  rfl

/-- C6: across any record_practice call (and likewise for the intended
handler, whose recording branch actually commits), the stored
longest_streak afterwards equals the max of its prior value and the
possibly updated current_streak, current_streak ≤ longest_streak is
preserved, and longest_streak never decreases. -/
theorem record_practice_longest_monotone (tier : SubscriptionTier)
    (uid sid : Nat) (today : Int) (db : DBState)
    (hinv : (streakOf db uid).current_streak ≤
      (streakOf db uid).longest_streak) :
    ((streakOf (record_practice tier uid sid today db).2 uid).longest_streak =
        max (streakOf db uid).longest_streak
          (streakOf (record_practice tier uid sid today db).2
            uid).current_streak ∧
      (streakOf (record_practice tier uid sid today db).2
          uid).current_streak ≤
        (streakOf (record_practice tier uid sid today db).2
          uid).longest_streak ∧
      (streakOf db uid).longest_streak ≤
        (streakOf (record_practice tier uid sid today db).2
          uid).longest_streak) ∧
    ((streakOf (record_practice_intended tier uid sid today db).2
        uid).longest_streak =
        max (streakOf db uid).longest_streak
          (streakOf (record_practice_intended tier uid sid today db).2
            uid).current_streak ∧
      (streakOf (record_practice_intended tier uid sid today db).2
          uid).current_streak ≤
        (streakOf (record_practice_intended tier uid sid today db).2
          uid).longest_streak ∧
      (streakOf db uid).longest_streak ≤
        (streakOf (record_practice_intended tier uid sid today db).2
          uid).longest_streak) := by
  constructor
  · rw [record_practice_snd_eq]
    exact ⟨(max_eq_left hinv).symm, hinv, le_refl _⟩
  · rcases record_practice_intended_snd_cases tier uid sid today db with h | h
    · rw [h]
      exact ⟨(max_eq_left hinv).symm, hinv, le_refl _⟩
    · rw [h, streakOf_applyRecording]
      exact updateStreak_longest (streakOf db uid) today hinv

/-- Instantiation of record_practice_longest_monotone at a user whose
streak row holds current 2, longest 3, last practice yesterday. -/
theorem record_practice_longest_monotone_witness :
    ((streakOf (record_practice .free 1 1 100
          ⟨[], [(1, ⟨2, 3, some 99, 5, 5⟩)]⟩).2 1).longest_streak =
        max (streakOf ⟨[], [(1, ⟨2, 3, some 99, 5, 5⟩)]⟩ 1).longest_streak
          (streakOf (record_practice .free 1 1 100
            ⟨[], [(1, ⟨2, 3, some 99, 5, 5⟩)]⟩).2 1).current_streak ∧
      (streakOf (record_practice .free 1 1 100
          ⟨[], [(1, ⟨2, 3, some 99, 5, 5⟩)]⟩).2 1).current_streak ≤
        (streakOf (record_practice .free 1 1 100
          ⟨[], [(1, ⟨2, 3, some 99, 5, 5⟩)]⟩).2 1).longest_streak ∧
      (streakOf ⟨[], [(1, ⟨2, 3, some 99, 5, 5⟩)]⟩ 1).longest_streak ≤
        (streakOf (record_practice .free 1 1 100
          ⟨[], [(1, ⟨2, 3, some 99, 5, 5⟩)]⟩).2 1).longest_streak) ∧
    ((streakOf (record_practice_intended .free 1 1 100
          ⟨[], [(1, ⟨2, 3, some 99, 5, 5⟩)]⟩).2 1).longest_streak =
        max (streakOf ⟨[], [(1, ⟨2, 3, some 99, 5, 5⟩)]⟩ 1).longest_streak
          (streakOf (record_practice_intended .free 1 1 100
            ⟨[], [(1, ⟨2, 3, some 99, 5, 5⟩)]⟩).2 1).current_streak ∧
      (streakOf (record_practice_intended .free 1 1 100
          ⟨[], [(1, ⟨2, 3, some 99, 5, 5⟩)]⟩).2 1).current_streak ≤
        (streakOf (record_practice_intended .free 1 1 100
          ⟨[], [(1, ⟨2, 3, some 99, 5, 5⟩)]⟩).2 1).longest_streak ∧
      (streakOf ⟨[], [(1, ⟨2, 3, some 99, 5, 5⟩)]⟩ 1).longest_streak ≤
        (streakOf (record_practice_intended .free 1 1 100
          ⟨[], [(1, ⟨2, 3, some 99, 5, 5⟩)]⟩).2 1).longest_streak) :=
  record_practice_longest_monotone .free 1 1 100
    ⟨[], [(1, ⟨2, 3, some 99, 5, 5⟩)]⟩ (by decide)

/-- C1: refuted on the shipped code: a call that passes the quota check and
the dedup lookup raises the constructor TypeError and mutates nothing, so
current_streak is never set.  Against the intended model (completed column
present) the claimed transitions do hold: null last_practice_date gives
streak 1; a one-day gap increments the streak; a larger gap resets it to 1;
and last_practice_date becomes today in each case. -/
theorem record_practice_new_day_streak_dead :
    record_practice .free 1 1 100 ⟨[], []⟩ =
      (.error (.type_error ("completed")), ⟨[], []⟩) ∧
    record_practice_intended .free 1 1 100 ⟨[], []⟩ =
      (.ok ⟨"Practice recorded", 100⟩,
        ⟨[⟨1, 1, 100⟩], [(1, ⟨1, 1, some 100, 1, 1⟩)]⟩) ∧
    record_practice_intended .free 1 1 100 ⟨[], [(1, ⟨3, 5, some 99, 3, 7⟩)]⟩ =
      (.ok ⟨"Practice recorded", 100⟩,
        ⟨[⟨1, 1, 100⟩], [(1, ⟨4, 5, some 100, 4, 8⟩)]⟩) ∧
    record_practice_intended .free 1 1 100 ⟨[], [(1, ⟨3, 5, some 97, 3, 7⟩)]⟩ =
      (.ok ⟨"Practice recorded", 100⟩,
        ⟨[⟨1, 1, 100⟩], [(1, ⟨1, 5, some 100, 4, 8⟩)]⟩) :=
  ⟨rfl, rfl, rfl, rfl⟩

/-- C4: refuted on the shipped code: the first recordPractice call of a
fresh user raises the constructor TypeError instead of initialising the
counters.  Against the intended model the first call yields
current_streak 1, longest_streak 1, total_practice_days 1 and
total_sentences_practiced 1. -/
theorem record_practice_first_call_dead :
    record_practice .free 7 3 200 ⟨[], []⟩ =
      (.error (.type_error ("completed")), ⟨[], []⟩) ∧
    record_practice_intended .free 7 3 200 ⟨[], []⟩ =
      (.ok ⟨"Practice recorded", 200⟩,
        ⟨[⟨7, 3, 200⟩], [(7, ⟨1, 1, some 200, 1, 1⟩)]⟩) :=
  ⟨rfl, rfl⟩

/-- C7: refuted on the shipped code: no recording ever succeeds, so there is
no earlier successful same-day recording to follow up on.  Against the
intended model, a second different sentence on the same day increments
total_sentences_practiced a second time while total_practice_days and
current_streak keep the values set by the first call of the day. -/
theorem record_practice_second_sentence_dead :
    record_practice .free 9 3 200 ⟨[], []⟩ =
      (.error (.type_error ("completed")), ⟨[], []⟩) ∧
    record_practice_intended .free 9 3 200 ⟨[], []⟩ =
      (.ok ⟨"Practice recorded", 200⟩,
        ⟨[⟨9, 3, 200⟩], [(9, ⟨1, 1, some 200, 1, 1⟩)]⟩) ∧
    record_practice_intended .free 9 4 200
        ⟨[⟨9, 3, 200⟩], [(9, ⟨1, 1, some 200, 1, 1⟩)]⟩ =
      (.ok ⟨"Practice recorded", 200⟩,
        ⟨[⟨9, 3, 200⟩, ⟨9, 4, 200⟩], [(9, ⟨1, 1, some 200, 1, 2⟩)]⟩) :=
  ⟨rfl, rfl, rfl⟩

/-- C9: refuted on the shipped code: a call with last_practice_date after
today also raises the constructor TypeError before any insert, so the
described negative-gap behavior never executes.  Against the intended model
it does hold: with last_practice_date 105 and today 100, current_streak is
left at 2 (neither gap branch fires), total_practice_days and
total_sentences_practiced are incremented, last_practice_date moves
backward to 100, and the call reports success. -/
theorem record_practice_negative_gap_dead :
    record_practice .free 11 4 100 ⟨[], [(11, ⟨2, 4, some 105, 6, 9⟩)]⟩ =
      (.error (.type_error ("completed")),
        ⟨[], [(11, ⟨2, 4, some 105, 6, 9⟩)]⟩) ∧
    record_practice_intended .free 11 4 100
        ⟨[], [(11, ⟨2, 4, some 105, 6, 9⟩)]⟩ =
      (.ok ⟨"Practice recorded", 100⟩,
        ⟨[⟨11, 4, 100⟩], [(11, ⟨2, 4, some 100, 7, 10⟩)]⟩) :=
  ⟨rfl, rfl⟩

/-- The empty grouping satisfies the invariant. -/
lemma histInv_nil : HistInv [] [] := by
  constructor
  · intro d
    simp
  · intro e he
    simp at he

/-- One grouping step preserves the invariant. -/
lemma histInv_add (p : List PracticeRecordRow) (h : List HistoryEntry)
    (r : PracticeRecordRow) (hi : HistInv p h) :
    HistInv (p ++ [r]) (historyAdd h r) := by
  obtain ⟨h1, h2⟩ := hi
  unfold historyAdd
  by_cases hc : (h.any fun e => e.date == r.practice_date) = true
  · rw [if_pos hc]
    have hdate : ∃ e ∈ h, e.date = r.practice_date := by
      rcases List.any_eq_true.mp hc with ⟨e, he, heq⟩
      exact ⟨e, he, by simpa using heq⟩
    have hupd : ∀ e : HistoryEntry,
        ((if e.date == r.practice_date then
            { e with count := e.count + 1
                     sentence_ids := e.sentence_ids ++ [r.sentence_id] }
          else e) : HistoryEntry).date = e.date := by
      intro e
      by_cases hcase : (e.date == r.practice_date) = true
      · rw [if_pos hcase]
      · rw [if_neg hcase]
    constructor
    · intro d
      constructor
      · rintro ⟨e', he', hd⟩
        rcases List.mem_map.mp he' with ⟨e, he, heq⟩
        have hde : e'.date = e.date := by
          rw [← heq]
          exact hupd e
        rcases (h1 d).mp ⟨e, he, by rw [← hde, hd]⟩ with ⟨q, hq, hqd⟩
        exact ⟨q, List.mem_append.mpr (Or.inl hq), hqd⟩
      · rintro ⟨q, hq, hqd⟩
        rcases List.mem_append.mp hq with hq | hq
        · rcases (h1 d).mpr ⟨q, hq, hqd⟩ with ⟨e, he, hed⟩
          refine ⟨_, List.mem_map.mpr ⟨e, he, rfl⟩, ?_⟩
          rw [hupd e, hed]
        · have hqr : q = r := by simpa using hq
          rcases hdate with ⟨e, he, hed⟩
          refine ⟨_, List.mem_map.mpr ⟨e, he, rfl⟩, ?_⟩
          rw [hupd e, hed, ← hqr, hqd]
    · intro e' he'
      rcases List.mem_map.mp he' with ⟨e, he, heq⟩
      rcases h2 e he with ⟨hc2, hs2⟩
      by_cases hcase : (e.date == r.practice_date) = true
      · rw [if_pos hcase] at heq
        have hed : e.date = r.practice_date := by simpa using hcase
        subst heq
        have hpred : (fun q : PracticeRecordRow => q.practice_date ==
            (({ e with count := e.count + 1,
                       sentence_ids := e.sentence_ids ++ [r.sentence_id] } :
              HistoryEntry)).date) =
            fun q : PracticeRecordRow => q.practice_date == e.date := rfl
        have hsing : ([r].filter fun q => q.practice_date == e.date) = [r] := by
          simp [List.filter_cons, hed]
        constructor
        · show e.count + 1 = _
          rw [hpred, List.filter_append, hsing, List.length_append, ← hc2]
          rfl
        · show e.sentence_ids ++ [r.sentence_id] = _
          rw [hpred, List.filter_append, hsing, List.map_append, ← hs2]
          rfl
      · rw [if_neg hcase] at heq
        subst heq
        have hne : e.date ≠ r.practice_date := by simpa using hcase
        have hrd : (r.practice_date == e.date) = false := by
          simp only [beq_eq_false_iff_ne]
          exact fun hx => hne hx.symm
        have hempty : ([r].filter fun q => q.practice_date == e.date) = [] := by
          simp [List.filter_cons, hrd]
        constructor
        · rw [List.filter_append, hempty, List.append_nil]
          exact hc2
        · rw [List.filter_append, hempty, List.append_nil]
          exact hs2
  · rw [if_neg hc]
    have hnone : ∀ e ∈ h, e.date ≠ r.practice_date := by
      intro e he hx
      exact hc (List.any_eq_true.mpr ⟨e, he, by simp [hx]⟩)
    have hpnone : ∀ q ∈ p, q.practice_date ≠ r.practice_date := by
      intro q hq hx
      rcases (h1 r.practice_date).mpr ⟨q, hq, hx⟩ with ⟨e, he, hed⟩
      exact hnone e he hed
    constructor
    · intro d
      constructor
      · rintro ⟨e, he, hd⟩
        rcases List.mem_append.mp he with he | he
        · rcases (h1 d).mp ⟨e, he, hd⟩ with ⟨q, hq, hqd⟩
          exact ⟨q, List.mem_append.mpr (Or.inl hq), hqd⟩
        · have hee : e = ⟨r.practice_date, 1, [r.sentence_id]⟩ := by
            simpa using he
          refine ⟨r, List.mem_append.mpr (Or.inr (by simp)), ?_⟩
          rw [← hd, hee]
      · rintro ⟨q, hq, hqd⟩
        rcases List.mem_append.mp hq with hq | hq
        · rcases (h1 d).mpr ⟨q, hq, hqd⟩ with ⟨e, he, hed⟩
          exact ⟨e, List.mem_append.mpr (Or.inl he), hed⟩
        · have hqr : q = r := by simpa using hq
          refine ⟨⟨r.practice_date, 1, [r.sentence_id]⟩,
            List.mem_append.mpr (Or.inr (by simp)), ?_⟩
          show r.practice_date = d
          rw [← hqr, hqd]
    · intro e he
      rcases List.mem_append.mp he with he | he
      · rcases h2 e he with ⟨hc2, hs2⟩
        have hrd : (r.practice_date == e.date) = false := by
          simp only [beq_eq_false_iff_ne]
          exact fun hx => hnone e he hx.symm
        have hempty : ([r].filter fun q => q.practice_date == e.date) = [] := by
          simp [List.filter_cons, hrd]
        constructor
        · rw [List.filter_append, hempty, List.append_nil]
          exact hc2
        · rw [List.filter_append, hempty, List.append_nil]
          exact hs2
      · have hee : e = ⟨r.practice_date, 1, [r.sentence_id]⟩ := by
          simpa using he
        subst hee
        have hpempty :
            (p.filter fun q => q.practice_date == r.practice_date) = [] := by
          rw [List.filter_eq_nil_iff]
          intro q hq
          simp only [beq_iff_eq]
          exact hpnone q hq
        have hpred : (fun q : PracticeRecordRow => q.practice_date ==
            ((⟨r.practice_date, 1, [r.sentence_id]⟩ : HistoryEntry)).date) =
            fun q : PracticeRecordRow =>
              q.practice_date == r.practice_date := rfl
        constructor
        · show 1 = _
          rw [hpred, List.filter_append, hpempty, List.nil_append]
          simp [List.filter_cons]
        · show [r.sentence_id] = _
          rw [hpred, List.filter_append, hpempty, List.nil_append]
          simp [List.filter_cons]

/-- Folding any record list through the grouping loop preserves the
invariant. -/
lemma histInv_foldl (l : List PracticeRecordRow) :
    ∀ (p : List PracticeRecordRow) (h : List HistoryEntry), HistInv p h →
      HistInv (p ++ l) (l.foldl historyAdd h) := by
  induction l with
  | nil =>
    intro p h hi
    simpa using hi
  | cons r l ih =>
    intro p h hi
    have hstep := histInv_add p h r hi
    have hrest := ih (p ++ [r]) (historyAdd h r) hstep
    simpa [List.append_assoc] using hrest

/-- C8: get_practice_stats's 7-day history is exactly the seven days
today-6 … today, in order, each paired with that day's record count (zero
when inactive), whereas get_practice_history returns exactly the dates with
at least one of the user's records on or after today - (days - 1), grouped
into (date, count, sentence_ids) entries; inactive dates are absent. -/
theorem practice_history_shapes (db : DBState) (uid : Nat) (days : Nat)
    (today : Int) :
    (get_practice_stats db uid today).last_7_days =
      [(today - 6, countOnDate db uid (today - 6)),
       (today - 5, countOnDate db uid (today - 5)),
       (today - 4, countOnDate db uid (today - 4)),
       (today - 3, countOnDate db uid (today - 3)),
       (today - 2, countOnDate db uid (today - 2)),
       (today - 1, countOnDate db uid (today - 1)),
       (today, countOnDate db uid today)] ∧
    (get_practice_stats db uid today).last_7_days.length = 7 ∧
    (∀ d : Int,
      (∃ e ∈ (get_practice_history db uid days today).2.2, e.date = d) ↔
        ∃ q ∈ db.records, q.user_id = uid ∧ q.practice_date = d ∧
          today - ((days : Int) - 1) ≤ q.practice_date) ∧
    ∀ e ∈ (get_practice_history db uid days today).2.2,
      e.count = ((db.records.filter fun q => q.user_id == uid &&
          decide (q.practice_date ≥ today - ((days : Int) - 1))).filter
            fun q => q.practice_date == e.date).length ∧
      e.sentence_ids = ((db.records.filter fun q => q.user_id == uid &&
          decide (q.practice_date ≥ today - ((days : Int) - 1))).filter
            fun q => q.practice_date == e.date).map (·.sentence_id) := by
  have hinv := histInv_foldl (db.records.filter fun r => r.user_id == uid &&
      decide (r.practice_date ≥ today - ((days : Int) - 1))) [] [] histInv_nil
  rw [List.nil_append] at hinv
  obtain ⟨hiff, hcnt⟩ := hinv
  have hhist : (get_practice_history db uid days today).2.2 =
      (db.records.filter fun r => r.user_id == uid &&
        decide (r.practice_date ≥ today - ((days : Int) - 1))).foldl
        historyAdd [] := rfl
  refine ⟨?_, ?_, ?_, ?_⟩
  · show ((List.range 7).reverse.map fun i : Nat =>
      (today - (i : Int), countOnDate db uid (today - (i : Int)))) = _
    rw [show (List.range 7).reverse = [6, 5, 4, 3, 2, 1, 0] from rfl]
    simp only [List.map_cons, List.map_nil]
    norm_num
  · rfl
  · intro d
    rw [hhist, hiff d]
    constructor
    · rintro ⟨q, hq, hqd⟩
      rcases List.mem_filter.mp hq with ⟨hqm, hqc⟩
      simp only [Bool.and_eq_true, beq_iff_eq, decide_eq_true_eq] at hqc
      exact ⟨q, hqm, hqc.1, hqd, hqc.2⟩
    · rintro ⟨q, hqm, hqu, hqd, hqge⟩
      refine ⟨q, List.mem_filter.mpr ⟨hqm, ?_⟩, hqd⟩
      simp [hqu, ge_iff_le, hqge]
  · intro e he
    rw [hhist] at he
    exact hcnt e he

/-- Instantiation of practice_history_shapes on a user with records on two
dates: the grouped entry for date 100 carries both sentence ids. -/
theorem practice_history_shapes_witness :
    (get_practice_stats ⟨[⟨1, 5, 100⟩, ⟨1, 6, 100⟩, ⟨1, 5, 99⟩], []⟩ 1
        100).last_7_days.length = 7 ∧
    HistoryEntry.sentence_ids ⟨100, 2, [5, 6]⟩ =
      ((([⟨1, 5, 100⟩, ⟨1, 6, 100⟩, ⟨1, 5, 99⟩] :
          List PracticeRecordRow).filter fun q => q.user_id == 1 &&
            decide (q.practice_date ≥ 100 - (((30 : Nat) : Int) - 1))).filter
        fun q => q.practice_date == (100 : Int)).map (·.sentence_id) :=
  ⟨(practice_history_shapes ⟨[⟨1, 5, 100⟩, ⟨1, 6, 100⟩, ⟨1, 5, 99⟩], []⟩
      1 30 100).2.1,
    ((practice_history_shapes ⟨[⟨1, 5, 100⟩, ⟨1, 6, 100⟩, ⟨1, 5, 99⟩], []⟩
      1 30 100).2.2.2 ⟨100, 2, [5, 6]⟩ (by decide)).2⟩
